import Mathlib

/- Shallow embedding of the thread-scheduling core declared in
   src/pintos/src/threads/thread.h.  The repository ships only the header:
   the implementation files (thread.c, synch.c, FixedPoint.h) are absent,
   so every function body below is modelled from the natural-language
   specification (spec.md) and the comments in thread.h, as recorded in
   each doc comment.  The constants and declared signatures are taken
   from thread.h itself. -/

/-- Lowest priority, thread.h line 26: `#define PRI_MIN 0`. -/
def PRI_MIN : Int := 0

/-- Default priority, thread.h line 27: `#define PRI_DEFAULT 31`. -/
def PRI_DEFAULT : Int := 31

/-- Highest priority, thread.h line 28: `#define PRI_MAX 63`. -/
def PRI_MAX : Int := 63

/-- Error value for `tid_t`, thread.h line 23: `#define TID_ERROR ((tid_t) -1)`. -/
def TID_ERROR : Int := -1

/-- Modelled from the spec: FixedPoint.h is absent from src/.  Spec section 4.4
fixes the representation as a signed fixed-point value with 17 integer bits and
14 fractional bits, scale factor 2 ^ 14 = 16384. -/
def fp_scale : Int := 16384

/-- A 17.14 fixed-point number, represented by its raw scaled integer. -/
abbrev fixed_point := Int

/-- Modelled from the spec: conversion of an integer to 17.14 fixed point. -/
def int_to_fp (n : Int) : fixed_point := n * fp_scale

/-- Modelled from the spec: conversion to integer, truncating toward zero
(C integer division), per the truncation-on-divide rule of spec section 4.4. -/
def fp_to_int (x : fixed_point) : Int := Int.tdiv x fp_scale

/-- Modelled from the spec: fixed-point addition. -/
def fp_add (x y : fixed_point) : fixed_point := x + y

/-- Modelled from the spec: fixed-point multiplication, truncating toward the
representable grid (C division truncates toward zero). -/
def fp_mul (x y : fixed_point) : fixed_point := Int.tdiv (x * y) fp_scale

/-- Modelled from the spec: fixed-point division, truncating toward the
representable grid (C division truncates toward zero). -/
def fp_div (x y : fixed_point) : fixed_point := Int.tdiv (x * fp_scale) y

/-- Modelled from the spec: add an integer to a fixed-point value. -/
def fp_add_int (x : fixed_point) (n : Int) : fixed_point := x + n * fp_scale

/-- Modelled from the spec: multiply a fixed-point value by an integer
(exact, no truncation needed). -/
def fp_mul_int (x : fixed_point) (n : Int) : fixed_point := x * n

/-- Modelled from the spec: divide a fixed-point value by an integer,
truncating toward zero. -/
def fp_div_int (x : fixed_point) (n : Int) : fixed_point := Int.tdiv x n

/-- States in a thread's life cycle, thread.h lines 12-18. -/
inductive thread_status where
  | THREAD_RUNNING : thread_status
  | THREAD_READY : thread_status
  | THREAD_BLOCKED : thread_status
  | THREAD_DYING : thread_status
deriving DecidableEq, Repr

export thread_status (THREAD_RUNNING THREAD_READY THREAD_BLOCKED THREAD_DYING)

/-- The scheduler-relevant fields of `struct thread` (thread.h lines 87-120).
Locks are identified by natural numbers; `blocked_on_lock` is the optional
identifier of the lock currently blocking the thread (null when absent).
The intrusive list nodes (`allelem`, `elem`), the saved stack pointer, the
USERPROG fields and the `magic` sentinel are raw-memory artifacts with no
scheduler-visible semantics and are not part of the embedding; the list of
locks held by a thread is modelled separately as the donation state. -/
structure Thread where
  tid : Int
  status : thread_status
  name : String
  base_priority : Int
  priority : Int
  blocked_on_lock : Option Nat
  recent_cpu : fixed_point
  nice : Int
deriving DecidableEq, Repr

/-- Clamp an integer priority into [PRI_MIN, PRI_MAX]. -/
def clampPri (p : Int) : Int := max PRI_MIN (min PRI_MAX p)

/-- Modelled from the spec: thread.c is absent from src/.  Declared in
thread.h lines 162-165 ("calculate the priority according to recent_cpu and
nice values and return the value clamped to a suitable range"); the formula is
spec section 4.4: `priority = clamp(63 - recent_cpu/4 - nice*2, 0, 63)`, where
`recent_cpu/4` is fixed-point division by 4 truncated to an integer. -/
def calculate_priority (t : Thread) : Int :=
  clampPri (PRI_MAX - fp_to_int (fp_div_int t.recent_cpu 4) - t.nice * 2)

/-- Reference evaluation of the spec sentence for `calculate_priority`,
written directly over raw integers: clamp(63 - recent_cpu/4 - nice*2, 0, 63)
with both divisions truncating toward zero.  Used only to compare against
`calculate_priority`. -/
def calculate_priority_ref (rc nice : Int) : Int :=
  max 0 (min 63 (63 - Int.tdiv (Int.tdiv rc 4) 16384 - nice * 2))

/-- The MLFQS recomputation step: store the freshly calculated priority in the
thread, leaving every other field (base_priority in particular) unchanged.
Modelled from the spec, section 4.4: "priority = clamp(...) — pure function
recomputation". -/
def mlfqs_recompute (t : Thread) : Thread :=
  { t with priority := calculate_priority t }

/-- Modelled from the spec: count of threads in READY plus the running thread,
excluding the idle thread (spec section 4.4).  The ready queue never holds the
idle thread, so the exclusion applies to the running slot. -/
def ready_threads (ready_list : List Thread) (running : Thread) (idle_tid : Int) : Int :=
  (ready_list.length : Int) + (if running.tid = idle_tid then 0 else 1)

/-- Modelled from the spec: thread.c is absent from src/.  Declared in
thread.h lines 170-173; the formula is spec section 4.4:
`load_avg = (59/60)*load_avg + (1/60)*ready_threads`, evaluated in 17.14
fixed point with truncation on multiply and divide. -/
def calculate_load_avg (load_avg : fixed_point) (ready_cnt : Int) : fixed_point :=
  fp_add (fp_mul (fp_div (int_to_fp 59) (int_to_fp 60)) load_avg)
    (fp_mul (fp_div (int_to_fp 1) (int_to_fp 60)) (int_to_fp ready_cnt))

/-- Reference evaluation of the spec formula for the load average, written
over raw integers: the 17.14 representation of 59/60 is 16110 and of 1/60 is
273 (both truncated), so one step is trunc(16110*load/16384) + 273*ready. -/
def load_avg_ref (load_avg ready_cnt : Int) : Int :=
  Int.tdiv (16110 * load_avg) 16384 + 273 * ready_cnt

/-- Modelled from the spec: thread.c is absent from src/.  Declared in
thread.h lines 166-169; the formula is spec section 4.4:
`recent_cpu = (2*load_avg)/(2*load_avg+1) * recent_cpu + nice`, evaluated in
17.14 fixed point with truncation on multiply and divide. -/
def calculate_recent_cpu (load_avg : fixed_point) (t : Thread) : fixed_point :=
  fp_add_int
    (fp_mul (fp_div (fp_mul_int load_avg 2) (fp_add_int (fp_mul_int load_avg 2) 1))
      t.recent_cpu)
    t.nice

/-- Reference evaluation of the spec formula for recent_cpu, written over raw
integers with explicit truncating divisions. -/
def recent_cpu_ref (load_avg rc nice : Int) : Int :=
  Int.tdiv (Int.tdiv (2 * load_avg * 16384) (2 * load_avg + 16384) * rc) 16384
    + nice * 16384

/-- Declared in thread.h lines 158-161: "Returns true if a is greater than b."
Modelled from the spec (thread.c absent): the ready-queue ordering comparator
compares effective priorities, true exactly when the first thread's effective
priority is strictly greater than the second's. -/
def priority_greater_func (a b : Thread) : Bool :=
  decide (a.priority > b.priority)

/-- Modelled from the spec: ordered insertion into the ready queue (spec
section 4.2, "O(insertion) ordered insert by effective priority then FIFO"),
with the Pintos `list_insert_ordered` discipline: the new element is placed
before the first element that compares strictly less than it, hence after all
earlier elements of equal priority. -/
def list_insert_ordered (l : List Thread) (t : Thread) : List Thread :=
  match l with
  | [] => [t]
  | x :: xs =>
    if priority_greater_func t x then t :: x :: xs
    else x :: list_insert_ordered xs t

/-- Modelled from the spec: `pop_highest` removes and returns the head of the
ordered ready queue (spec section 4.2). -/
def pop_highest (l : List Thread) : Option Thread × List Thread :=
  match l with
  | [] => (none, [])
  | x :: xs => (some x, xs)

/-- The ready queue is sorted by effective priority, descending (head is a
maximum); ties are adjacent in FIFO order. -/
def sortedByPri (l : List Thread) : Prop :=
  l.Pairwise (fun a b => a.priority ≥ b.priority)

instance (l : List Thread) : Decidable (sortedByPri l) := by
  unfold sortedByPri
  infer_instance

/-- Scheduler state for the dispatch step: the running thread and the ordered
ready queue. -/
structure Sched where
  running : Thread
  ready : List Thread
deriving DecidableEq, Repr

/-- Declared in thread.h lines 174-177: "Swaps to the highest priority in the
already sorted ready queue."  Modelled from the spec (thread.c absent), spec
section 4.2: compare the ready set's maximum against the running thread's
effective priority and switch exactly when strictly greater; the displaced
running thread is re-enqueued at its current effective priority. -/
def thread_swap_to_highest_pri (s : Sched) : Sched :=
  match s.ready with
  | [] => s
  | h :: t =>
    if h.priority > s.running.priority then
      { running := h, ready := list_insert_ordered t s.running }
    else s

/-- Modelled from the spec: initialization of a new thread control block
(spec section 4.1): base_priority and effective priority equal to the
requested value, or under MLFQS both computed from nice = 0, recent_cpu = 0;
the new thread is READY. -/
def init_thread (thread_mlfqs : Bool) (tidv : Int) (nm : String) (pri : Int) : Thread :=
  let t0 : Thread :=
    { tid := tidv, status := THREAD_READY, name := nm,
      base_priority := pri, priority := pri,
      blocked_on_lock := none, recent_cpu := 0, nice := 0 }
  if thread_mlfqs then
    let p := calculate_priority t0
    { t0 with base_priority := p, priority := p }
  else t0

/-- The two error classes of the core that reach a caller or halt the system
(spec section 7). -/
inductive SchedError where
  | ResourceExhausted : SchedError
  | CorruptionDetected : SchedError
deriving DecidableEq, Repr

/-- Modelled from the spec: thread.c is absent from src/.  Declared in
thread.h line 134.  `alloc_ok` stands for the page allocator's answer
(spec section 6: `allocate_control_block_page() -> raw memory | fails with
ResourceExhausted`).  On failure the error is propagated and nothing changes;
on success the new thread is initialized, set READY and inserted into the
ready queue in priority order (spec section 4.1). -/
def thread_create (thread_mlfqs : Bool) (alloc_ok : Bool) (nm : String) (pri : Int)
    (next_tid : Int) (ready_list : List Thread) :
    Except SchedError (Thread × List Thread) :=
  if alloc_ok then
    let t := init_thread thread_mlfqs next_tid nm pri
    Except.ok (t, list_insert_ordered ready_list t)
  else Except.error SchedError.ResourceExhausted

/-- Modelled from the spec: the tid returned to the caller of thread_create —
TID_ERROR on failure (the "error value" of spec section 7(a), distinguished
per thread.h line 23), the new thread's identifier on success. -/
def thread_create_tid (thread_mlfqs : Bool) (alloc_ok : Bool) (nm : String) (pri : Int)
    (next_tid : Int) (ready_list : List Thread) : Int :=
  match thread_create thread_mlfqs alloc_ok nm pri next_tid ready_list with
  | Except.error _ => TID_ERROR
  | Except.ok (t, _) => t.tid

/-- Modelled from the spec: the Registry "assigns identifiers" (spec section
2); identifiers are handed out by a counter that starts at 1 and increments,
returning the fresh tid and the next counter value. -/
def allocate_tid (next_tid : Int) : Int × Int := (next_tid, next_tid + 1)

/-- Modelled from the spec: thread.c is absent from src/.  Declared in
thread.h line 155: `get_donated_priority(struct thread *t, int donated_pri)`.
Spec section 4.3: a donation raises the donee's effective priority when the
donated priority exceeds it, and otherwise changes nothing. -/
def get_donated_priority (t : Thread) (donated_pri : Int) : Thread :=
  if donated_pri > t.priority then { t with priority := donated_pri } else t

/-- Modelled from the spec: thread.c is absent from src/.  Declared in
thread.h line 151.  Spec sections 4.3 and 4.4: under MLFQS the call is
ignored entirely; otherwise the base priority is set and the effective
priority is recomputed as the maximum of the new base and the priorities
currently donated to the thread (`dons`). -/
def thread_set_priority (thread_mlfqs : Bool) (dons : List Int) (new_priority : Int)
    (t : Thread) : Thread :=
  if thread_mlfqs then t
  else
    { t with base_priority := new_priority,
             priority := dons.foldr max new_priority }

/-- Modelled from the spec: a thread blocks on a lock acquisition attempt —
status becomes BLOCKED and `blocked_on_lock` records the single lock
(spec sections 3 and 4.3). -/
def block_on_lock (t : Thread) (l : Nat) : Thread :=
  { t with status := THREAD_BLOCKED, blocked_on_lock := some l }

/-- Modelled from the spec: a thread blocks for a non-lock reason (e.g. a
semaphore wait without donation) — status becomes BLOCKED and
`blocked_on_lock` stays null (spec section 3). -/
def block_on_sema (t : Thread) : Thread :=
  { t with status := THREAD_BLOCKED, blocked_on_lock := none }

/-- Modelled from the spec: thread_unblock (declared thread.h line 137) moves
a BLOCKED thread to READY; it no longer waits on any lock. -/
def thread_unblock (t : Thread) : Thread :=
  { t with status := THREAD_READY, blocked_on_lock := none }

/-- The blocked_on_lock invariant of spec section 3: the field is set only on
a thread that is BLOCKED. -/
def blocked_inv (t : Thread) : Prop :=
  t.blocked_on_lock ≠ none → t.status = THREAD_BLOCKED

/-- Donation-side view of one thread (the donee O): its base priority, its
effective priority, and for every lock it holds (identified by number) the
effective priorities of the waiters on that lock.  Modelled from the spec
(`locks` field of thread.h line 96 plus spec section 4.3). -/
structure DonState where
  base : Int
  pri : Int
  held : List (Nat × List Int)
deriving DecidableEq, Repr

/-- All priorities currently donated to the thread: the waiters of every lock
it holds. -/
def donations (held : List (Nat × List Int)) : List Int :=
  (held.map Prod.snd).flatten

/-- Effective priority as the spec defines it (section 3): the maximum of the
base priority and all priorities donated to this thread. -/
def effective_pri (base : Int) (held : List (Nat × List Int)) : Int :=
  (donations held).foldr max base

/-- Modelled from the spec, section 4.3 (block-on-lock): a waiter of effective
priority `p` arrives on lock `lid` held by this thread; it is recorded on
that lock's wait list and the donee's effective priority is raised to `p`
when `p` exceeds it. -/
def donate (s : DonState) (lid : Nat) (p : Int) : DonState :=
  { s with
    held := s.held.map (fun lw => if lw.1 = lid then (lw.1, p :: lw.2) else lw),
    pri := max s.pri p }

/-- Modelled from the spec, section 4.3 (release-of-lock): the lock `lid` is
dropped from the held set and the effective priority is recomputed as the
maximum of the base priority and the donations from all other locks still
held — donations sourced from waiters on the released lock are dropped. -/
def lock_release (s : DonState) (lid : Nat) : DonState :=
  let held2 := s.held.filter (fun lw => lw.1 ≠ lid)
  { s with held := held2, pri := effective_pri s.base held2 }

/-- A READY thread with the given identifier and effective = base priority,
used in the concrete ready-queue scenarios. -/
def mkReadyThread (tidv p : Int) : Thread :=
  { tid := tidv, status := THREAD_READY, name := "t", base_priority := p,
    priority := p, blocked_on_lock := none, recent_cpu := 0, nice := 0 }

/-- The spec scenario queue: priorities 5 (thread 1), 10 (thread 2), 5
(thread 3), enqueued in that order. -/
def readyQ535 : List Thread :=
  list_insert_ordered
    (list_insert_ordered (list_insert_ordered [] (mkReadyThread 1 5))
      (mkReadyThread 2 10))
    (mkReadyThread 3 5)

/-- An MLFQS thread after four ticks of CPU use: recent_cpu = 4.0 (raw value
4 * 16384 = 65536), nice = 0, base_priority and priority both still at the
creation-time value 63 computed from nice = 0, recent_cpu = 0. -/
def tMlfqs : Thread :=
  { tid := 2, status := THREAD_RUNNING, name := "busy", base_priority := 63,
    priority := 63, blocked_on_lock := none, recent_cpu := 65536, nice := 0 }

/-- A donation-mode thread with a donation in effect: base 10, effective 30. -/
def tEx : Thread :=
  { tid := 3, status := THREAD_RUNNING, name := "ex", base_priority := 10,
    priority := 30, blocked_on_lock := none, recent_cpu := 0, nice := 0 }

/-- Donee state of the spec round-trip scenario: base priority 10, effective
priority 10, holding one lock (number 1) with no waiters yet. -/
def dEx : DonState := { base := 10, pri := 10, held := [(1, [])] }

/-- Scheduler state: a priority-5 thread running while threads of priorities
30 and 20 sit in the sorted ready queue. -/
def sEx : Sched :=
  { running := mkReadyThread 4 5,
    ready := [mkReadyThread 5 30, mkReadyThread 6 20] }

theorem le_foldr_max (l : List Int) (b : Int) : b ≤ l.foldr max b := by
  induction l with
  | nil => exact le_refl b
  | cons x xs ih => exact le_trans ih (le_max_right x _)

theorem mem_list_insert_ordered {u t : Thread} {l : List Thread} :
    u ∈ list_insert_ordered l t ↔ u = t ∨ u ∈ l := by
  induction l with
  | nil => simp [list_insert_ordered]
  | cons x xs ih =>
    by_cases h : priority_greater_func t x
    · simp only [list_insert_ordered, if_pos h, List.mem_cons]
    · simp only [list_insert_ordered, if_neg h, List.mem_cons, ih]
      tauto

theorem sorted_list_insert_ordered {l : List Thread} (t : Thread)
    (hs : sortedByPri l) : sortedByPri (list_insert_ordered l t) := by
  induction l with
  | nil => simp [list_insert_ordered, sortedByPri]
  | cons x xs ih =>
    simp only [sortedByPri] at hs ih ⊢
    rcases List.pairwise_cons.mp hs with ⟨hx, hxs⟩
    by_cases h : priority_greater_func t x
    · have ht : x.priority < t.priority := by
        simpa [priority_greater_func] using h
      rw [list_insert_ordered, if_pos h]
      refine List.Pairwise.cons ?_ hs
      intro b hb
      rcases List.mem_cons.mp hb with rfl | hb2
      · exact le_of_lt ht
      · exact le_trans (hx b hb2) (le_of_lt ht)
    · have ht : t.priority ≤ x.priority := by
        have h2 := h
        simp [priority_greater_func] at h2
        exact h2
      rw [list_insert_ordered, if_neg h]
      refine List.Pairwise.cons ?_ (ih hxs)
      intro b hb
      rcases mem_list_insert_ordered.mp hb with rfl | hb2
      · exact ht
      · exact hx b hb2

theorem effective_pri_cons (base : Int) (lw : Nat × List Int)
    (t : List (Nat × List Int)) :
    effective_pri base (lw :: t) = lw.2.foldr max (effective_pri base t) := by
  simp [effective_pri, donations, List.foldr_append]

theorem effective_pri_filter (base : Int) (lid : Nat)
    (held : List (Nat × List Int))
    (hempty : ∀ lw ∈ held, lw.1 = lid → lw.2 = ([] : List Int)) :
    effective_pri base (held.filter (fun lw => lw.1 ≠ lid)) =
      effective_pri base held := by
  induction held with
  | nil => rfl
  | cons lw t ih =>
    have iht := ih (fun x hx h1 => hempty x (List.mem_cons_of_mem _ hx) h1)
    simp only [ne_eq, decide_not] at iht ⊢
    by_cases h : lw.1 = lid
    · have h2 : lw.2 = ([] : List Int) := hempty lw (List.mem_cons_self _ _) h
      have hf : List.filter (fun lw => !decide (lw.1 = lid)) (lw :: t) =
          List.filter (fun lw => !decide (lw.1 = lid)) t := by
        simp [List.filter_cons, h]
      rw [hf, iht, effective_pri_cons base lw t, h2]
      rfl
    · have hf : List.filter (fun lw => !decide (lw.1 = lid)) (lw :: t) =
          lw :: List.filter (fun lw => !decide (lw.1 = lid)) t := by
        simp [List.filter_cons, h]
      rw [hf,
        effective_pri_cons base lw (List.filter (fun lw => !decide (lw.1 = lid)) t),
        effective_pri_cons base lw t, iht]

theorem filter_donate_held (held : List (Nat × List Int)) (lid : Nat) (p : Int) :
    (held.map (fun lw => if lw.1 = lid then (lw.1, p :: lw.2) else lw)).filter
        (fun lw => lw.1 ≠ lid) =
      held.filter (fun lw => lw.1 ≠ lid) := by
  induction held with
  | nil => rfl
  | cons lw t ih =>
    simp only [ne_eq, decide_not] at ih ⊢
    by_cases h : lw.1 = lid
    · simp [List.filter_cons, h, ih]
    · simp [List.filter_cons, h, ih]

/-- C1: the claim as stated is false.  The MLFQS recomputation
`priority = clamp(63 - recent_cpu/4 - nice*2, 0, 63)` writes the priority
field without consulting base_priority.  Concretely: a thread created under
MLFQS with nice = 0, recent_cpu = 0 gets base_priority = priority = 63; after
four ticks of CPU use (recent_cpu = 4.0, raw 65536) the recomputation yields
priority 62, strictly below the unchanged base_priority 63. -/
theorem claim_C1_counterexample :
    tMlfqs.priority ≥ tMlfqs.base_priority ∧
      ¬ (mlfqs_recompute tMlfqs).priority ≥ (mlfqs_recompute tMlfqs).base_priority := by
  decide

/-- C1 (amended): under the priority-donation policy the inequality
priority ≥ base_priority is an invariant — creation establishes it and
thread_set_priority (in either policy mode) and donation via
get_donated_priority preserve it; the MLFQS recomputation is excluded, since
it overwrites priority as a pure function of recent_cpu and nice with no
reference to base_priority. -/
theorem claim_C1 :
    (∀ (m : Bool) (tidv : Int) (nm : String) (p : Int),
        (init_thread m tidv nm p).priority ≥ (init_thread m tidv nm p).base_priority) ∧
    (∀ (m : Bool) (dons : List Int) (np : Int) (t : Thread),
        t.priority ≥ t.base_priority →
        (thread_set_priority m dons np t).priority ≥
          (thread_set_priority m dons np t).base_priority) ∧
    (∀ (t : Thread) (d : Int),
        t.priority ≥ t.base_priority →
        (get_donated_priority t d).priority ≥ (get_donated_priority t d).base_priority) := by
  refine ⟨?_, ?_, ?_⟩
  · intro m tidv nm p
    cases m <;> simp [init_thread]
  · intro m dons np t ht
    cases m with
    | false =>
      simp only [thread_set_priority, Bool.false_eq_true, if_false]
      exact le_foldr_max dons np
    | true =>
      simpa [thread_set_priority] using ht
  · intro t d ht
    by_cases h : d > t.priority
    · simp only [get_donated_priority, if_pos h]
      exact le_trans ht (le_of_lt h)
    · simpa [get_donated_priority, if_neg h] using ht

/-- C1 witness: thread_set_priority with a pending donation of 40 and a new
base of 20, and a donation of 50, both applied to a thread with base 10 and
effective 30, keep priority ≥ base_priority. -/
theorem claim_C1_witness :
    tEx.priority ≥ tEx.base_priority ∧
    (thread_set_priority false [40] 20 tEx).priority ≥
      (thread_set_priority false [40] 20 tEx).base_priority ∧
    (get_donated_priority tEx 50).priority ≥
      (get_donated_priority tEx 50).base_priority :=
  ⟨by decide, claim_C1.2.1 false [40] 20 tEx (by decide),
    claim_C1.2.2 tEx 50 (by decide)⟩

/-- C2: calculate_priority equals the spec formula
clamp(63 - recent_cpu/4 - nice*2, 0, 63) — a pure function of the thread's
current recent_cpu and nice with truncating division — and its result always
lies in [PRI_MIN, PRI_MAX] = [0, 63]. -/
theorem claim_C2 :
    ∀ t : Thread,
      calculate_priority t = calculate_priority_ref t.recent_cpu t.nice ∧
      PRI_MIN ≤ calculate_priority t ∧ calculate_priority t ≤ PRI_MAX := by
  intro t
  refine ⟨rfl, ?_, ?_⟩
  · simp only [calculate_priority, clampPri]
    exact le_max_left _ _
  · simp only [calculate_priority, clampPri]
    exact max_le (by decide) (min_le_left _ _)

/-- C3: donation round-trip.  If the donee's effective priority is the
consistent value max(base, all donations) and every entry for lock `lid` in
its held set has no waiters yet, then after a donation of priority p arrives
via lock `lid` and that lock is then released (with no other contention in
between), the donee's effective priority is exactly what it was before the
donation. -/
theorem claim_C3 :
    ∀ (s : DonState) (lid : Nat) (p : Int),
      s.pri = effective_pri s.base s.held →
      (∀ lw ∈ s.held, lw.1 = lid → lw.2 = ([] : List Int)) →
      (lock_release (donate s lid p) lid).pri = s.pri := by
  intro s lid p hcons hempty
  have h1 : (lock_release (donate s lid p) lid).pri =
      effective_pri s.base
        ((s.held.map (fun lw => if lw.1 = lid then (lw.1, p :: lw.2) else lw)).filter
          (fun lw => lw.1 ≠ lid)) := rfl
  rw [h1, filter_donate_held s.held lid p, effective_pri_filter s.base lid s.held hempty]
  exact hcons.symm

/-- C3 witness: the spec scenario — donee with base 10 and effective 10
holding lock 1 with no waiters; a donation of 30 arrives via lock 1 and the
lock is released; the effective priority is back to 10. -/
theorem claim_C3_witness :
    dEx.pri = effective_pri dEx.base dEx.held ∧
    (lock_release (donate dEx 1 30) 1).pri = dEx.pri :=
  ⟨by decide, claim_C3 dEx 1 30 (by decide) (by decide)⟩

/-- C4: the MLFQS fixed-point formulas are bit-for-bit the reference 17.14
evaluations.  calculate_load_avg equals trunc(16110 * load / 16384) + 273 *
ready (16110 and 273 being the truncated 17.14 encodings of 59/60 and 1/60),
calculate_recent_cpu equals the truncating evaluation of
(2*load)/(2*load+1) * recent_cpu + nice, and ready_threads counts the READY
threads plus one for a non-idle running thread. -/
theorem claim_C4 :
    (∀ l r : Int, calculate_load_avg l r = load_avg_ref l r) ∧
    (∀ (l : Int) (t : Thread),
        calculate_recent_cpu l t = recent_cpu_ref l t.recent_cpu t.nice) ∧
    (∀ (rl : List Thread) (run : Thread) (i : Int),
        run.tid ≠ i → ready_threads rl run i = (rl.length : Int) + 1) := by
  refine ⟨?_, ?_, ?_⟩
  · intro l r
    show Int.tdiv (Int.tdiv (59 * 16384 * 16384) (60 * 16384) * l) 16384 +
        Int.tdiv (Int.tdiv (1 * 16384 * 16384) (60 * 16384) * (r * 16384)) 16384 =
      Int.tdiv (16110 * l) 16384 + 273 * r
    have e1 : Int.tdiv (59 * 16384 * 16384) (60 * 16384) = (16110 : Int) := by decide
    have e2 : Int.tdiv (1 * 16384 * 16384) (60 * 16384) = (273 : Int) := by decide
    rw [e1, e2]
    have e3 : (273 : Int) * (r * 16384) = 273 * r * 16384 := by ring
    rw [e3, Int.mul_tdiv_cancel (273 * r) (by norm_num)]
  · intro l t
    show Int.tdiv (Int.tdiv (l * 2 * 16384) (l * 2 + 1 * 16384) * t.recent_cpu) 16384 +
        t.nice * 16384 =
      Int.tdiv (Int.tdiv (2 * l * 16384) (2 * l + 16384) * t.recent_cpu) 16384 +
        t.nice * 16384
    rw [show l * 2 * 16384 = 2 * l * 16384 by ring,
      show l * 2 + 1 * 16384 = 2 * l + (16384 : Int) by ring]
  · intro rl run i h
    simp [ready_threads, h]

/-- C4 witness: a running thread distinct from the idle thread contributes one
to the ready_threads count. -/
theorem claim_C4_witness :
    tEx.tid ≠ (0 : Int) ∧
    ready_threads [] tEx 0 = ((List.length ([] : List Thread) : Int)) + 1 :=
  ⟨by decide, claim_C4.2.2 [] tEx 0 (by decide)⟩

/-- C5: the ready-queue comparator priority_greater_func is true exactly when
the first thread's effective priority is strictly greater than the second's,
and the spec scenario holds: enqueuing priorities 5 (thread 1), 10 (thread 2),
5 (thread 3) in that order and popping repeatedly yields thread 2, then
thread 1, then thread 3 — FIFO tie-break preserved. -/
theorem claim_C5 :
    (∀ a b : Thread, priority_greater_func a b = true ↔ a.priority > b.priority) ∧
    readyQ535.map Thread.tid = [2, 1, 3] ∧
    (pop_highest readyQ535).1 = some (mkReadyThread 2 10) ∧
    (pop_highest (pop_highest readyQ535).2).1 = some (mkReadyThread 1 5) ∧
    (pop_highest (pop_highest (pop_highest readyQ535).2).2).1 =
      some (mkReadyThread 3 5) := by
  refine ⟨?_, by decide, by decide, by decide, by decide⟩
  intro a b
  simp [priority_greater_func]

/-- C6: for a sorted ready queue, thread_swap_to_highest_pri switches exactly
when the ready maximum strictly exceeds the running thread's effective
priority (on a tie or below, the state is unchanged and the running thread
keeps the CPU); afterwards the running thread's effective priority is greater
than or equal to that of every thread in the ready queue, and the queue is
still sorted. -/
theorem claim_C6 :
    ∀ s : Sched, sortedByPri s.ready →
      (∀ h t, s.ready = h :: t →
          (h.priority > s.running.priority →
              (thread_swap_to_highest_pri s).running = h ∧
              (thread_swap_to_highest_pri s).ready = list_insert_ordered t s.running) ∧
          (¬ h.priority > s.running.priority → thread_swap_to_highest_pri s = s)) ∧
      (∀ u ∈ (thread_swap_to_highest_pri s).ready,
          u.priority ≤ (thread_swap_to_highest_pri s).running.priority) ∧
      sortedByPri (thread_swap_to_highest_pri s).ready := by
  intro s hs
  rcases s with ⟨running, ready⟩
  cases ready with
  | nil =>
    refine ⟨?_, ?_, ?_⟩
    · intro h t heq; cases heq
    · intro u hu; cases hu
    · exact hs
  | cons hd tl =>
    simp only [sortedByPri] at hs
    rcases List.pairwise_cons.mp hs with ⟨hhd, htl⟩
    by_cases hp : hd.priority > running.priority
    · have hswap : thread_swap_to_highest_pri ⟨running, hd :: tl⟩ =
          ⟨hd, list_insert_ordered tl running⟩ := by
        simp [thread_swap_to_highest_pri, hp]
      refine ⟨?_, ?_, ?_⟩
      · intro h t heq
        cases heq
        exact ⟨fun _ => by rw [hswap]; exact ⟨rfl, rfl⟩, fun hn => absurd hp hn⟩
      · intro u hu
        rw [hswap] at hu ⊢
        rcases mem_list_insert_ordered.mp hu with rfl | hu2
        · exact le_of_lt hp
        · exact hhd u hu2
      · rw [hswap]
        exact sorted_list_insert_ordered running htl
    · have hswap : thread_swap_to_highest_pri ⟨running, hd :: tl⟩ =
          ⟨running, hd :: tl⟩ := by
        simp [thread_swap_to_highest_pri, hp]
      refine ⟨?_, ?_, ?_⟩
      · intro h t heq
        cases heq
        exact ⟨fun hgt => absurd hgt hp, fun _ => hswap⟩
      · intro u hu
        rw [hswap] at hu ⊢
        rcases List.mem_cons.mp hu with rfl | hu2
        · exact not_lt.mp hp
        · exact le_trans (hhd u hu2) (not_lt.mp hp)
      · rw [hswap]
        exact hs

/-- C6 witness: with a priority-5 thread running and a sorted ready queue of
priorities 30 and 20, the dispatcher switches to the priority-30 thread and
re-enqueues the displaced thread in order. -/
theorem claim_C6_witness :
    sortedByPri sEx.ready ∧
    (thread_swap_to_highest_pri sEx).running = mkReadyThread 5 30 ∧
    (thread_swap_to_highest_pri sEx).ready =
      list_insert_ordered [mkReadyThread 6 20] (mkReadyThread 4 5) :=
  ⟨by decide,
    ((claim_C6 sEx (by decide)).1 (mkReadyThread 5 30) [mkReadyThread 6 20] rfl).1
      (by decide)⟩

/-- C7: when the MLFQS policy is active, thread_set_priority is a no-op —
the thread's entire state (base_priority and priority fields in particular)
is returned unchanged and no donation value is consulted. -/
theorem claim_C7 :
    ∀ (dons : List Int) (np : Int) (t : Thread),
      thread_set_priority true dons np t = t := by
  intro dons np t
  rfl

/-- C8: thread_create fails with ResourceExhausted exactly when no stack
memory is available (the allocator said no), changing nothing else; on
success the new thread has base_priority equal to its effective priority —
both the requested value under the donation policy, and the value computed
from nice = 0, recent_cpu = 0 (which is PRI_MAX = 63) under MLFQS — its
status is READY, and it is inserted into the ready queue. -/
theorem claim_C8 :
    ∀ (m alloc : Bool) (nm : String) (p ntid : Int) (rl : List Thread),
      (alloc = false →
        thread_create m alloc nm p ntid rl =
          Except.error SchedError.ResourceExhausted) ∧
      (alloc = true →
        thread_create m alloc nm p ntid rl =
          Except.ok (init_thread m ntid nm p,
            list_insert_ordered rl (init_thread m ntid nm p)) ∧
        (init_thread m ntid nm p).status = THREAD_READY ∧
        (init_thread m ntid nm p).base_priority = (init_thread m ntid nm p).priority ∧
        (m = false → (init_thread m ntid nm p).priority = p) ∧
        (m = true → (init_thread m ntid nm p).priority = PRI_MAX) ∧
        init_thread m ntid nm p ∈ list_insert_ordered rl (init_thread m ntid nm p)) := by
  intro m alloc nm p ntid rl
  constructor
  · intro ha; subst ha; rfl
  · intro ha; subst ha
    refine ⟨rfl, ?_, ?_, ?_, ?_, ?_⟩
    · cases m <;> rfl
    · cases m <;> rfl
    · intro hm; subst hm; rfl
    · intro hm; subst hm; rfl
    · exact mem_list_insert_ordered.mpr (Or.inl rfl)

/-- C8 witness: with no memory the creation fails with ResourceExhausted;
with memory available a default-priority thread is created and enqueued. -/
theorem claim_C8_witness :
    thread_create false false "w" 31 1 [] =
      Except.error SchedError.ResourceExhausted ∧
    thread_create false true "w" 31 1 [] =
      Except.ok (init_thread false 1 "w" 31,
        list_insert_ordered [] (init_thread false 1 "w" 31)) :=
  ⟨(claim_C8 false false "w" 31 1 []).1 rfl,
    ((claim_C8 false true "w" 31 1 []).2 rfl).1⟩

/-- C9: blocking on a lock sets status BLOCKED and records exactly that lock
in blocked_on_lock; blocking for a non-lock reason (semaphore wait) sets
status BLOCKED with blocked_on_lock null; unblocking clears blocked_on_lock;
a thread waits on at most one lock at a time; and all three operations
preserve the invariant that blocked_on_lock is set only on a BLOCKED
thread. -/
theorem claim_C9 :
    (∀ (t : Thread) (l : Nat),
        (block_on_lock t l).status = THREAD_BLOCKED ∧
        (block_on_lock t l).blocked_on_lock = some l) ∧
    (∀ t : Thread,
        (block_on_sema t).status = THREAD_BLOCKED ∧
        (block_on_sema t).blocked_on_lock = none) ∧
    (∀ t : Thread,
        (thread_unblock t).status = THREAD_READY ∧
        (thread_unblock t).blocked_on_lock = none) ∧
    (∀ (t : Thread) (l1 l2 : Nat),
        t.blocked_on_lock = some l1 → t.blocked_on_lock = some l2 → l1 = l2) ∧
    (∀ t : Thread, blocked_inv t →
        blocked_inv (thread_unblock t) ∧ blocked_inv (block_on_sema t) ∧
        ∀ l : Nat, blocked_inv (block_on_lock t l)) := by
  refine ⟨fun t l => ⟨rfl, rfl⟩, fun t => ⟨rfl, rfl⟩, fun t => ⟨rfl, rfl⟩, ?_, ?_⟩
  · intro t l1 l2 h1 h2
    rw [h1] at h2
    exact Option.some.inj h2
  · intro t _
    refine ⟨?_, ?_, ?_⟩
    · intro hcontra; exact absurd rfl hcontra
    · intro hcontra; exact absurd rfl hcontra
    · intro l _; rfl

/-- C9 witness: a running thread waiting on no lock satisfies the invariant,
and still does after thread_unblock. -/
theorem claim_C9_witness :
    blocked_inv tEx ∧ blocked_inv (thread_unblock tEx) :=
  ⟨fun h => absurd rfl h,
    (claim_C9.2.2.2.2 tEx (fun h => absurd rfl h)).1⟩

/-- C10: the failure result of thread_create is the distinguished identifier
TID_ERROR = -1 (thread.h line 23); identifiers of successfully created
threads come from a counter that starts at 1 and only grows, so a successful
creation never returns -1 and callers distinguish failure from success by
comparing against TID_ERROR. -/
theorem claim_C10 :
    TID_ERROR = -1 ∧
    (∀ (m : Bool) (nm : String) (p ntid : Int) (rl : List Thread),
        thread_create_tid m false nm p ntid rl = TID_ERROR) ∧
    (∀ (m : Bool) (nm : String) (p ntid : Int) (rl : List Thread),
        1 ≤ ntid →
        thread_create_tid m true nm p ntid rl = ntid ∧
        thread_create_tid m true nm p ntid rl ≠ TID_ERROR) ∧
    (∀ n : Int, 1 ≤ n →
        (allocate_tid n).1 ≠ TID_ERROR ∧ 1 ≤ (allocate_tid n).2) := by
  refine ⟨rfl, ?_, ?_, ?_⟩
  · intro m nm p ntid rl; rfl
  · intro m nm p ntid rl h
    have htid : thread_create_tid m true nm p ntid rl = ntid := by
      cases m <;> rfl
    refine ⟨htid, ?_⟩
    rw [htid]
    simp only [TID_ERROR]
    omega
  · intro n h
    constructor
    · simp only [allocate_tid, TID_ERROR]
      omega
    · simp only [allocate_tid]
      omega

/-- C10 witness: a successful creation with counter value 1 returns tid 1,
not TID_ERROR. -/
theorem claim_C10_witness :
    (1 : Int) ≤ 1 ∧ thread_create_tid false true "w" 31 1 [] = 1 :=
  ⟨by decide, (claim_C10.2.2.1 false "w" 31 1 [] (by decide)).1⟩
